import Mathlib

/-!
Verification development for the streamdeck-rs core: a shallow embedding of
the protocol message codec (`src/lib.rs`), the duplex socket stream
(`src/socket.rs`) and the connection-establishment state machine
(`src/socket.rs`), together with theorems checking the specification's
claims against these definitions.
-/

namespace StreamDeck

/-- JSON values, as produced by parsing one UTF-8 JSON text frame.
Numbers are modelled as integers (every numeric field of this protocol is
an integer).  Object fields are kept as an ordered association list, in
textual order. -/
inductive Json where
  | null
  | bool (b : Bool)
  | num (n : Int)
  | str (s : String)
  | arr (elems : List Json)
  | obj (fields : List (String × Json))
deriving Repr

/-! ## Rust strings and byte slicing

The `Color` deserializer in `src/lib.rs` slices a `&str` at fixed *byte*
offsets (`&value[0..1]`, `&value[1..3]`, ...).  We model a Rust `&str` as
its list of Unicode scalar values; byte positions are those of the UTF-8
encoding, so a slice is defined only when both end points fall on
character boundaries — a slice that does not is a Rust panic, modelled
as `none`. -/

/-- A Rust `&str`, as a sequence of Unicode scalar values. -/
abbrev RStr := List Char

/-- Byte length of a string (Rust `str::len`). -/
def byteLen (s : RStr) : Nat := (s.map Char.utf8Size).sum

/-- Drop `a` bytes from the front; `none` when `a` is out of bounds or
falls inside a multi-byte character (where Rust slicing panics). -/
def dropBytes : Nat → RStr → Option RStr
  | 0, s => some s
  | _+1, [] => none
  | a+1, c :: rest =>
      if c.utf8Size ≤ a + 1 then dropBytes (a + 1 - c.utf8Size) rest
      else none

/-- Take `b` bytes from the front; `none` when `b` is out of bounds or
falls inside a multi-byte character. -/
def takeBytes : Nat → RStr → Option RStr
  | 0, _ => some []
  | _+1, [] => none
  | b+1, c :: rest =>
      if c.utf8Size ≤ b + 1 then (takeBytes (b + 1 - c.utf8Size) rest).map (c :: ·)
      else none

/-- Rust `&s[a..b]` for `a ≤ b`; `none` models the slicing panic. -/
def sliceBytes (s : RStr) (a b : Nat) : Option RStr :=
  (dropBytes a s).bind (takeBytes (b - a))

/-! ## The Color codec (src/lib.rs, `impl Serialize/Deserialize for Color`) -/

/-- The color type of `src/lib.rs`: RGB or RGBA with 8-bit components. -/
inductive Color where
  | rgb (r g b : Fin 256)
  | rgba (r g b a : Fin 256)
deriving DecidableEq, Repr

/-- Decode diagnostics produced by the `Color` visitor: `invalid_value`
for a bad hex component, the custom "expected string to begin with '#'"
message, and `invalid_length`. -/
inductive ColorError where
  | invalidValue (s : RStr)
  | customNoHash
  | invalidLength (n : Nat)
deriving DecidableEq, Repr

/-- Hex digit value of a character (Rust `char::to_digit(16)`). -/
def hexVal? (c : Char) : Option Nat :=
  if '0' ≤ c ∧ c ≤ '9' then some (c.toNat - '0'.toNat)
  else if 'a' ≤ c ∧ c ≤ 'f' then some (c.toNat - 'a'.toNat + 10)
  else if 'A' ≤ c ∧ c ≤ 'F' then some (c.toNat - 'A'.toNat + 10)
  else none

/-- Strip the optional leading `+` sign accepted by `u8::from_str_radix`. -/
def stripPlus (s : RStr) : RStr :=
  match s with
  | c :: rest => if c = '+' then rest else s
  | [] => s

/-- Rust `u8::from_str_radix(s, 16)`: an optional `+` sign followed by a
nonempty sequence of hex digits, failing on overflow past 255. -/
def fromStrRadix16 (s : RStr) : Option (Fin 256) :=
  let digits := stripPlus s
  if digits.isEmpty then none
  else digits.foldl
    (fun acc c => acc.bind fun n => (hexVal? c).bind fun d =>
      if h : n.val * 16 + d < 256 then some ⟨n.val * 16 + d, h⟩ else none)
    (some ⟨0, by omega⟩)

/-- Sequencing for computations that may panic (`none`) or fail with a
decode error (`some (.error e)`). -/
def pbind {α β : Type} (x : Option (Except ColorError α))
    (f : α → Option (Except ColorError β)) : Option (Except ColorError β) :=
  match x with
  | none => none
  | some (.error e) => some (.error e)
  | some (.ok a) => f a

/-- A byte slice lifted into the panic-or-error monad. -/
def slicePanic (s : RStr) (a b : Nat) : Option (Except ColorError RStr) :=
  (sliceBytes s a b).map .ok

/-- The `parse_component` closure of the `Color` visitor. -/
def parse_component (value : RStr) : Except ColorError (Fin 256) :=
  match fromStrRadix16 value with
  | some n => .ok n
  | none => .error (.invalidValue value)

/-- The `parse_rgb` closure of the `Color` visitor: check the leading `#`
(via the byte slice `&value[0..1]`), then parse the three components at
bytes 1..3, 3..5, 5..7. -/
def parse_rgb (value : RStr) : Option (Except ColorError (Fin 256 × Fin 256 × Fin 256)) :=
  pbind (slicePanic value 0 1) fun first =>
  if first ≠ ['#'] then some (.error .customNoHash)
  else
  pbind (slicePanic value 1 3) fun rs =>
  pbind (some (parse_component rs)) fun r =>
  pbind (slicePanic value 3 5) fun gs =>
  pbind (some (parse_component gs)) fun g =>
  pbind (slicePanic value 5 7) fun bs =>
  pbind (some (parse_component bs)) fun b =>
  some (.ok (r, g, b))

/-- The `visit_str` method of the `Color` visitor: dispatch on the byte
length of the input (7 for RGB, 9 for RGBA, anything else is
`invalid_length`); `none` models a panic. -/
def Color.visit_str (value : RStr) : Option (Except ColorError Color) :=
  match byteLen value with
  | 7 =>
      pbind (parse_rgb value) fun rgb =>
      some (.ok (.rgb rgb.1 rgb.2.1 rgb.2.2))
  | 9 =>
      pbind (parse_rgb value) fun rgb =>
      pbind (slicePanic value 7 9) fun av =>
      pbind (some (parse_component av)) fun a =>
      some (.ok (.rgba rgb.1 rgb.2.1 rgb.2.2 a))
  | n => some (.error (.invalidLength n))

/-- Lowercase hex digit character, as produced by Rust `format!("{:02x}")`. -/
def hexDigitChar (d : Nat) : Char :=
  if d < 10 then Char.ofNat ('0'.toNat + d) else Char.ofNat ('a'.toNat + d - 10)

/-- Two-digit lowercase hex rendering of a byte. -/
def hexByte (n : Fin 256) : RStr := [hexDigitChar (n.val / 16), hexDigitChar (n.val % 16)]

/-- The `Serialize` impl for `Color`: `#` followed by 6 or 8 lowercase
hex digits. -/
def Color.serialize : Color → RStr
  | .rgb r g b => '#' :: (hexByte r ++ hexByte g ++ hexByte b)
  | .rgba r g b a => '#' :: (hexByte r ++ hexByte g ++ hexByte b ++ hexByte a)

/-- A string whose characters all take a single UTF-8 byte. -/
def asciiStr (s : RStr) : Prop := ∀ c ∈ s, c.utf8Size = 1

/-! ## JSON utilities -/

/-- Field lookup in a JSON object (first occurrence wins; the objects the
claims quantify over are duplicate-free, as serde rejects duplicates of
known fields). -/
def lookupField (fields : List (String × Json)) (k : String) : Option Json :=
  match fields with
  | [] => none
  | (k2, v) :: rest => if k2 = k then some v else lookupField rest k

mutual

/-- Structural equality of JSON values. -/
def Json.beq : Json → Json → Bool
  | .null, .null => true
  | .bool a, .bool b => a == b
  | .num a, .num b => a == b
  | .str a, .str b => a == b
  | .arr xs, .arr ys => beqList xs ys
  | .obj xs, .obj ys => beqFields xs ys
  | _, _ => false

/-- Elementwise `Json.beq` on arrays. -/
def beqList : List Json → List Json → Bool
  | [], [] => true
  | x :: xs, y :: ys => Json.beq x y && beqList xs ys
  | _, _ => false

/-- Elementwise `Json.beq` on object fields. -/
def beqFields : List (String × Json) → List (String × Json) → Bool
  | [], [] => true
  | (k, v) :: xs, (k2, v2) :: ys => k == k2 && Json.beq v v2 && beqFields xs ys
  | _, _ => false

end

/-- Insert one field into a key-sorted field list. -/
def insertField (p : String × Json) : List (String × Json) → List (String × Json)
  | [] => [p]
  | q :: qs => if p.1 < q.1 then p :: q :: qs else q :: insertField p qs

/-- Sort object fields by key (insertion sort). -/
def sortFields (fs : List (String × Json)) : List (String × Json) :=
  fs.foldr insertField []

mutual

/-- Normal form of a JSON value: object keys sorted at every level. -/
def Json.norm : Json → Json
  | .null => .null
  | .bool b => .bool b
  | .num n => .num n
  | .str s => .str s
  | .arr xs => .arr (normList xs)
  | .obj fs => .obj (sortFields (normFields fs))

/-- Normalize every element of an array. -/
def normList : List Json → List Json
  | [] => []
  | x :: xs => x.norm :: normList xs

/-- Normalize every field value of an object. -/
def normFields : List (String × Json) → List (String × Json)
  | [] => []
  | (k, v) :: fs => (k, v.norm) :: normFields fs

end

/-- Equality of JSON values up to object key order at every level. -/
def jsonEqUpToKeyOrder (a b : Json) : Bool := Json.beq a.norm b.norm

/-! ## Decode errors and primitive field decoders

The serde-derived deserializers report missing fields, type mismatches,
out-of-range values, duplicate tag fields, and (for the outbound union,
which has no catch-all) unknown variants.  The exact diagnostic text is
irrelevant to the claims; the kind and the offending field are kept. -/

/-- Diagnostics of the derived JSON deserializers. -/
inductive DecodeError where
  | missingField (name : String)
  | invalidType (field : String)
  | invalidValue (field : String)
  | duplicateField (name : String)
  | unknownVariant (tag : String)
deriving DecidableEq, Repr

/-- Deserialize a JSON string. -/
def decodeString (field : String) : Json → Except DecodeError String
  | .str s => .ok s
  | _ => .error (.invalidType field)

/-- Deserialize a JSON boolean. -/
def decodeBool (field : String) : Json → Except DecodeError Bool
  | .bool b => .ok b
  | _ => .error (.invalidType field)

/-- Deserialize a `u8`: an integer in `[0, 256)`. -/
def decodeU8 (field : String) : Json → Except DecodeError (Fin 256)
  | .num n => if h : 0 ≤ n ∧ n < 256 then .ok ⟨n.toNat, by omega⟩ else .error (.invalidValue field)
  | _ => .error (.invalidType field)

/-- Deserialize an `i64`: an integer in `[-2^63, 2^63)`. -/
def decodeI64 (field : String) : Json → Except DecodeError Int
  | .num n =>
      if -(2 ^ 63) ≤ n ∧ n < 2 ^ 63 then .ok n else .error (.invalidValue field)
  | _ => .error (.invalidType field)

/-- Deserialize a `u64`: an integer in `[0, 2^64)`. -/
def decodeU64 (field : String) : Json → Except DecodeError Nat
  | .num n => if 0 ≤ n ∧ n < 2 ^ 64 then .ok n.toNat else .error (.invalidValue field)
  | _ => .error (.invalidType field)

/-- A required field of a derived struct: missing means a decode error. -/
def reqField (fields : List (String × Json)) (k : String) : Except DecodeError Json :=
  match lookupField fields k with
  | some v => .ok v
  | none => .error (.missingField k)

/-- An `Option<T>` field of a derived struct: a missing field and an
explicit `null` both decode to `None`. -/
def decodeOpt {α : Type} (dec : Json → Except DecodeError α)
    (fields : List (String × Json)) (k : String) : Except DecodeError (Option α) :=
  match lookupField fields k with
  | none => .ok none
  | some .null => .ok none
  | some v => (dec v).map some

/-- A required `String` field. -/
def reqString (fields : List (String × Json)) (k : String) : Except DecodeError String :=
  reqField fields k >>= decodeString k

/-- An optional `String` field. -/
def optString (fields : List (String × Json)) (k : String) :
    Except DecodeError (Option String) :=
  decodeOpt (decodeString k) fields k

/-- A required `u8` field. -/
def reqU8 (fields : List (String × Json)) (k : String) : Except DecodeError (Fin 256) :=
  reqField fields k >>= decodeU8 k

/-- An optional `u8` field. -/
def optU8 (fields : List (String × Json)) (k : String) :
    Except DecodeError (Option (Fin 256)) :=
  decodeOpt (decodeU8 k) fields k

/-- A required `bool` field. -/
def reqBool (fields : List (String × Json)) (k : String) : Except DecodeError Bool :=
  reqField fields k >>= decodeBool k

/-! ## Inbound messages (src/lib.rs, `enum Message`)

The three generic parameters `G`, `S`, `M` (global settings, action
settings, inspector messages) are opaque to the codec, which only
delegates their (de)serialization; they are instantiated here at JSON
values, whose codec is the identity.  Field names follow the serde
`rename_all = "camelCase"` attribute of the source. -/

/-- The location of a key on a device. -/
structure Coordinates where
  column : Fin 256
  row : Fin 256
deriving DecidableEq, Repr

/-- Deserializer for `Coordinates`. -/
def Coordinates.decode : Json → Except DecodeError Coordinates
  | .obj fs => do
      let c ← reqU8 fs "column"
      let r ← reqU8 fs "row"
      pure ⟨c, r⟩
  | _ => .error (.invalidType "coordinates")

/-- An optional `Coordinates` field. -/
def optCoordinates (fields : List (String × Json)) (k : String) :
    Except DecodeError (Option Coordinates) :=
  decodeOpt Coordinates.decode fields k

/-- The vertical alignment of a title. -/
inductive Alignment where
  | top
  | middle
  | bottom
deriving DecidableEq, Repr

/-- Deserializer for `Alignment` (externally tagged unit variants, renamed
to camelCase, read from a JSON string). -/
def Alignment.decode : Json → Except DecodeError Alignment
  | .str "top" => .ok .top
  | .str "middle" => .ok .middle
  | .str "bottom" => .ok .bottom
  | .str s => .error (.unknownVariant s)
  | _ => .error (.invalidType "titleAlignment")

/-- Style information for a title. -/
structure TitleParameters where
  font_family : String
  font_size : Fin 256
  font_style : String
  font_underline : Bool
  show_title : Bool
  title_alignment : Alignment
  title_color : String
deriving DecidableEq, Repr

/-- Deserializer for `TitleParameters`. -/
def TitleParameters.decode : Json → Except DecodeError TitleParameters
  | .obj fs => do
      let ff ← reqString fs "fontFamily"
      let fs2 ← reqU8 fs "fontSize"
      let fst ← reqString fs "fontStyle"
      let fu ← reqBool fs "fontUnderline"
      let st ← reqBool fs "showTitle"
      let ta ← reqField fs "titleAlignment" >>= Alignment.decode
      let tc ← reqString fs "titleColor"
      pure ⟨ff, fs2, fst, fu, st, ta, tc⟩
  | _ => .error (.invalidType "titleParameters")

/-- Additional information about the key pressed. -/
structure KeyPayload where
  settings : Json
  coordinates : Option Coordinates
  state : Option (Fin 256)
  user_desired_state : Option (Fin 256)
deriving Repr

/-- Deserializer for `KeyPayload`. -/
def KeyPayload.decode : Json → Except DecodeError KeyPayload
  | .obj fs => do
      let s ← reqField fs "settings"
      let co ← optCoordinates fs "coordinates"
      let st ← optU8 fs "state"
      let ud ← optU8 fs "userDesiredState"
      pure ⟨s, co, st, ud⟩
  | _ => .error (.invalidType "payload")

/-- Additional information about a key's appearance. -/
structure VisibilityPayload where
  settings : Json
  coordinates : Option Coordinates
  state : Option (Fin 256)
deriving Repr

/-- Deserializer for `VisibilityPayload`. -/
def VisibilityPayload.decode : Json → Except DecodeError VisibilityPayload
  | .obj fs => do
      let s ← reqField fs "settings"
      let co ← optCoordinates fs "coordinates"
      let st ← optU8 fs "state"
      pure ⟨s, co, st⟩
  | _ => .error (.invalidType "payload")

/-- The new title of a key.  `coordinates` is required here, unlike in the
other payloads. -/
structure TitleParametersPayload where
  settings : Json
  coordinates : Coordinates
  state : Option (Fin 256)
  title : String
  title_parameters : TitleParameters
deriving Repr

/-- Deserializer for `TitleParametersPayload`. -/
def TitleParametersPayload.decode : Json → Except DecodeError TitleParametersPayload
  | .obj fs => do
      let s ← reqField fs "settings"
      let co ← reqField fs "coordinates" >>= Coordinates.decode
      let st ← optU8 fs "state"
      let t ← reqString fs "title"
      let tp ← reqField fs "titleParameters" >>= TitleParameters.decode
      pure ⟨s, co, st, t, tp⟩
  | _ => .error (.invalidType "payload")

/-- The new global settings. -/
structure GlobalSettingsPayload where
  settings : Json
deriving Repr

/-- Deserializer for `GlobalSettingsPayload`. -/
def GlobalSettingsPayload.decode : Json → Except DecodeError GlobalSettingsPayload
  | .obj fs => do
      let s ← reqField fs "settings"
      pure ⟨s⟩
  | _ => .error (.invalidType "payload")

/-- Information about a monitored application. -/
structure ApplicationPayload where
  application : String
deriving DecidableEq, Repr

/-- Deserializer for `ApplicationPayload`. -/
def ApplicationPayload.decode : Json → Except DecodeError ApplicationPayload
  | .obj fs => do
      let a ← reqString fs "application"
      pure ⟨a⟩
  | _ => .error (.invalidType "payload")

/-- The size of a device in keys. -/
structure DeviceSize where
  columns : Fin 256
  rows : Fin 256
deriving DecidableEq, Repr

/-- Deserializer for `DeviceSize`. -/
def DeviceSize.decode : Json → Except DecodeError DeviceSize
  | .obj fs => do
      let c ← reqU8 fs "columns"
      let r ← reqU8 fs "rows"
      pure ⟨c, r⟩
  | _ => .error (.invalidType "size")

/-- The type of connected hardware device; codes 0-7 are named, any other
`u64` is kept in the `unknown` variant. -/
inductive DeviceType where
  | streamDeck
  | streamDeckMini
  | streamDeckXl
  | streamDeckMobile
  | corsairGKeys
  | streamDeckPedal
  | corsairVoyager
  | streamDeckPlus
  | unknown (value : Nat)
deriving DecidableEq, Repr

/-- The `visit_u64` dispatch of the hand-written `DeviceType` deserializer. -/
def DeviceType.ofCode : Nat → DeviceType
  | 0 => .streamDeck
  | 1 => .streamDeckMini
  | 2 => .streamDeckXl
  | 3 => .streamDeckMobile
  | 4 => .corsairGKeys
  | 5 => .streamDeckPedal
  | 6 => .corsairVoyager
  | 7 => .streamDeckPlus
  | value => .unknown value

/-- Deserializer for `DeviceType` (a bare `u64`). -/
def DeviceType.decode : Json → Except DecodeError DeviceType
  | j => (decodeU64 "type" j).map DeviceType.ofCode

/-- Information about a hardware device. -/
structure DeviceInfo where
  name : Option String
  size : DeviceSize
  _type : Option DeviceType
deriving DecidableEq, Repr

/-- Deserializer for `DeviceInfo` (the `_type` field is renamed `type`). -/
def DeviceInfo.decode : Json → Except DecodeError DeviceInfo
  | .obj fs => do
      let n ← optString fs "name"
      let s ← reqField fs "size" >>= DeviceSize.decode
      let t ← decodeOpt DeviceType.decode fs "type"
      pure ⟨n, s, t⟩
  | _ => .error (.invalidType "deviceInfo")

/-- Additional information about a touch tap event. -/
structure TouchTapPayload where
  settings : Json
  coordinates : Option Coordinates
  tap_pos : Fin 256 × Fin 256
  hold : Bool
deriving Repr

/-- Deserializer for a `(u8, u8)` tuple: a JSON array of exactly two
bytes. -/
def decodeU8Pair (field : String) : Json → Except DecodeError (Fin 256 × Fin 256)
  | .arr [a, b] => do
      let x ← decodeU8 field a
      let y ← decodeU8 field b
      pure (x, y)
  | _ => .error (.invalidType field)

/-- Deserializer for `TouchTapPayload`. -/
def TouchTapPayload.decode : Json → Except DecodeError TouchTapPayload
  | .obj fs => do
      let s ← reqField fs "settings"
      let co ← optCoordinates fs "coordinates"
      let tp ← reqField fs "tapPos" >>= decodeU8Pair "tapPos"
      let h ← reqBool fs "hold"
      pure ⟨s, co, tp, h⟩
  | _ => .error (.invalidType "payload")

/-- Additional information about an encoder press event. -/
structure DialDownPayload where
  settings : Json
  coordinates : Option Coordinates
deriving Repr

/-- Deserializer for `DialDownPayload`. -/
def DialDownPayload.decode : Json → Except DecodeError DialDownPayload
  | .obj fs => do
      let s ← reqField fs "settings"
      let co ← optCoordinates fs "coordinates"
      pure ⟨s, co⟩
  | _ => .error (.invalidType "payload")

/-- Additional information about an encoder release event. -/
structure DialUpPayload where
  settings : Json
  coordinates : Option Coordinates
deriving Repr

/-- Deserializer for `DialUpPayload`. -/
def DialUpPayload.decode : Json → Except DecodeError DialUpPayload
  | .obj fs => do
      let s ← reqField fs "settings"
      let co ← optCoordinates fs "coordinates"
      pure ⟨s, co⟩
  | _ => .error (.invalidType "payload")

/-- Additional information about an encoder rotate event. -/
structure DialRotatePayload where
  settings : Json
  coordinates : Option Coordinates
  ticks : Int
  pressed : Bool
deriving Repr

/-- Deserializer for `DialRotatePayload`. -/
def DialRotatePayload.decode : Json → Except DecodeError DialRotatePayload
  | .obj fs => do
      let s ← reqField fs "settings"
      let co ← optCoordinates fs "coordinates"
      let t ← reqField fs "ticks" >>= decodeI64 "ticks"
      let p ← reqBool fs "pressed"
      pure ⟨s, co, t, p⟩
  | _ => .error (.invalidType "payload")

/-- A message received from the Stream Deck software: the internally
tagged union of `src/lib.rs` (tag field `event`, variants renamed to
camelCase), with the `#[serde(other)]` catch-all `unknown`. -/
inductive Message where
  | keyDown (action context device : String) (payload : KeyPayload)
  | keyUp (action context device : String) (payload : KeyPayload)
  | willAppear (action context : String) (device : Option String) (payload : VisibilityPayload)
  | willDisappear (action context : String) (device : Option String) (payload : VisibilityPayload)
  | titleParametersDidChange (action context : String) (device : Option String)
      (payload : TitleParametersPayload)
  | deviceDidConnect (device : String) (device_info : DeviceInfo)
  | deviceDidDisconnect (device : String)
  | applicationDidLaunch (payload : ApplicationPayload)
  | applicationDidTerminate (payload : ApplicationPayload)
  | sendToPlugin (action context : String) (payload : Json)
  | didReceiveSettings (action context device : String) (payload : KeyPayload)
  | propertyInspectorDidAppear (action context device : String)
  | propertyInspectorDidDisappear (action context device : String)
  | didReceiveGlobalSettings (payload : GlobalSettingsPayload)
  | systemDidWakeUp
  | touchTap (action context device : String) (payload : TouchTapPayload)
  | dialDown (action context device : String) (payload : DialDownPayload)
  | dialUp (action context device : String) (payload : DialUpPayload)
  | dialRotate (action context device : String) (payload : DialRotatePayload)
  | unknown
deriving Repr

/-- The recognized inbound event tags (the camelCase variant names of
`Message`, excluding the `#[serde(other)]` catch-all). -/
def recognizedTags : List String :=
  ["keyDown", "keyUp", "willAppear", "willDisappear", "titleParametersDidChange",
   "deviceDidConnect", "deviceDidDisconnect", "applicationDidLaunch",
   "applicationDidTerminate", "sendToPlugin", "didReceiveSettings",
   "propertyInspectorDidAppear", "propertyInspectorDidDisappear",
   "didReceiveGlobalSettings", "systemDidWakeUp", "touchTap", "dialDown",
   "dialUp", "dialRotate"]

/-- Scan the object for the `event` tag, as serde's tagged-content visitor
does: a duplicate tag or a non-string tag value is an error. -/
def scanEvent : List (String × Json) → Option String → Except DecodeError (Option String)
  | [], acc => .ok acc
  | (k, v) :: rest, acc =>
      if k = "event" then
        match acc with
        | some _ => .error (.duplicateField "event")
        | none =>
            match v with
            | .str t => scanEvent rest (some t)
            | _ => .error (.invalidType "event")
      else scanEvent rest acc

/-- Decode the variant selected by a recognized tag from the buffered
object fields; an unrecognized tag selects the `#[serde(other)]`
catch-all `unknown`, whatever the remaining fields are. -/
def Message.decodeTagged (t : String) (fs : List (String × Json)) : Except DecodeError Message :=
  if t = "keyDown" then do
    let a ← reqString fs "action"
    let c ← reqString fs "context"
    let d ← reqString fs "device"
    let p ← reqField fs "payload" >>= KeyPayload.decode
    pure (.keyDown a c d p)
  else if t = "keyUp" then do
    let a ← reqString fs "action"
    let c ← reqString fs "context"
    let d ← reqString fs "device"
    let p ← reqField fs "payload" >>= KeyPayload.decode
    pure (.keyUp a c d p)
  else if t = "willAppear" then do
    let a ← reqString fs "action"
    let c ← reqString fs "context"
    let d ← optString fs "device"
    let p ← reqField fs "payload" >>= VisibilityPayload.decode
    pure (.willAppear a c d p)
  else if t = "willDisappear" then do
    let a ← reqString fs "action"
    let c ← reqString fs "context"
    let d ← optString fs "device"
    let p ← reqField fs "payload" >>= VisibilityPayload.decode
    pure (.willDisappear a c d p)
  else if t = "titleParametersDidChange" then do
    let a ← reqString fs "action"
    let c ← reqString fs "context"
    let d ← optString fs "device"
    let p ← reqField fs "payload" >>= TitleParametersPayload.decode
    pure (.titleParametersDidChange a c d p)
  else if t = "deviceDidConnect" then do
    let d ← reqString fs "device"
    let i ← reqField fs "deviceInfo" >>= DeviceInfo.decode
    pure (.deviceDidConnect d i)
  else if t = "deviceDidDisconnect" then do
    let d ← reqString fs "device"
    pure (.deviceDidDisconnect d)
  else if t = "applicationDidLaunch" then do
    let p ← reqField fs "payload" >>= ApplicationPayload.decode
    pure (.applicationDidLaunch p)
  else if t = "applicationDidTerminate" then do
    let p ← reqField fs "payload" >>= ApplicationPayload.decode
    pure (.applicationDidTerminate p)
  else if t = "sendToPlugin" then do
    let a ← reqString fs "action"
    let c ← reqString fs "context"
    let p ← reqField fs "payload"
    pure (.sendToPlugin a c p)
  else if t = "didReceiveSettings" then do
    let a ← reqString fs "action"
    let c ← reqString fs "context"
    let d ← reqString fs "device"
    let p ← reqField fs "payload" >>= KeyPayload.decode
    pure (.didReceiveSettings a c d p)
  else if t = "propertyInspectorDidAppear" then do
    let a ← reqString fs "action"
    let c ← reqString fs "context"
    let d ← reqString fs "device"
    pure (.propertyInspectorDidAppear a c d)
  else if t = "propertyInspectorDidDisappear" then do
    let a ← reqString fs "action"
    let c ← reqString fs "context"
    let d ← reqString fs "device"
    pure (.propertyInspectorDidDisappear a c d)
  else if t = "didReceiveGlobalSettings" then do
    let p ← reqField fs "payload" >>= GlobalSettingsPayload.decode
    pure (.didReceiveGlobalSettings p)
  else if t = "systemDidWakeUp" then
    pure .systemDidWakeUp
  else if t = "touchTap" then do
    let a ← reqString fs "action"
    let c ← reqString fs "context"
    let d ← reqString fs "device"
    let p ← reqField fs "payload" >>= TouchTapPayload.decode
    pure (.touchTap a c d p)
  else if t = "dialDown" then do
    let a ← reqString fs "action"
    let c ← reqString fs "context"
    let d ← reqString fs "device"
    let p ← reqField fs "payload" >>= DialDownPayload.decode
    pure (.dialDown a c d p)
  else if t = "dialUp" then do
    let a ← reqString fs "action"
    let c ← reqString fs "context"
    let d ← reqString fs "device"
    let p ← reqField fs "payload" >>= DialUpPayload.decode
    pure (.dialUp a c d p)
  else if t = "dialRotate" then do
    let a ← reqString fs "action"
    let c ← reqString fs "context"
    let d ← reqString fs "device"
    let p ← reqField fs "payload" >>= DialRotatePayload.decode
    pure (.dialRotate a c d p)
  else .ok .unknown

/-- Decode one inbound text frame (already parsed as JSON) to a
`Message`, as the internally tagged serde derive does: find the `event`
tag in the object, then decode the selected variant from the buffered
content (the seq form of serde's tagged-content deserializer is not
modelled; the claims quantify over object frames only). -/
def Message.decode (j : Json) : Except DecodeError Message :=
  match j with
  | .obj fs =>
      match scanEvent fs none with
      | .error e => .error e
      | .ok none => .error (.missingField "event")
      | .ok (some t) => Message.decodeTagged t fs
  | _ => .error (.invalidType "message")

/-! ## Outbound messages (src/lib.rs, `enum MessageOut`)

As for `Message`, the generic settings/inspector-message parameters are
instantiated at JSON values.  The serializer writes the `event` tag
first, then the variant fields in declaration order;
`#[serde(skip_serializing_if = "Option::is_none")]` fields are omitted
when `None`, plain `Option` fields serialize `None` as `null`. -/

/-- The target of a command, serialized as a bare integer
(`serde_repr`). -/
inductive Target where
  | both
  | hardware
  | software
deriving DecidableEq, Repr

/-- Serializer for `Target`. -/
def Target.toJson : Target → Json
  | .both => .num 0
  | .hardware => .num 1
  | .software => .num 2

/-- Deserializer for `Target`: an integer code 0, 1 or 2. -/
def Target.decode (field : String) : Json → Except DecodeError Target
  | .num 0 => .ok .both
  | .num 1 => .ok .hardware
  | .num 2 => .ok .software
  | .num _ => .error (.invalidValue field)
  | _ => .error (.invalidType field)

/-- Serialize an `Option<String>` field without skip: `None` is `null`. -/
def optStrJson : Option String → Json
  | none => .null
  | some s => .str s

/-- Serialize a `u8` field. -/
def u8Json (n : Fin 256) : Json := .num n.val

/-- The fields contributed by an `Option<u8>` field carrying
`#[serde(skip_serializing_if = "Option::is_none")]`. -/
def skipOptU8Field (k : String) : Option (Fin 256) → List (String × Json)
  | none => []
  | some n => [(k, u8Json n)]

/-- The title to set as part of a `SetTitle` message. -/
structure TitlePayload where
  title : Option String
  target : Target
  state : Option (Fin 256)
deriving DecidableEq, Repr

/-- Serializer for `TitlePayload` (`state` is skipped when `None`). -/
def TitlePayload.toJson (p : TitlePayload) : Json :=
  .obj ([("title", optStrJson p.title), ("target", p.target.toJson)]
    ++ skipOptU8Field "state" p.state)

/-- Deserializer for `TitlePayload`. -/
def TitlePayload.decode : Json → Except DecodeError TitlePayload
  | .obj fs => do
      let t ← optString fs "title"
      let tg ← reqField fs "target" >>= Target.decode "target"
      let st ← optU8 fs "state"
      pure ⟨t, tg, st⟩
  | _ => .error (.invalidType "payload")

/-- The image to set as part of a `SetImage` message. -/
structure ImagePayload where
  image : Option String
  target : Target
  state : Option (Fin 256)
deriving DecidableEq, Repr

/-- Serializer for `ImagePayload` (`state` is skipped when `None`). -/
def ImagePayload.toJson (p : ImagePayload) : Json :=
  .obj ([("image", optStrJson p.image), ("target", p.target.toJson)]
    ++ skipOptU8Field "state" p.state)

/-- Deserializer for `ImagePayload`. -/
def ImagePayload.decode : Json → Except DecodeError ImagePayload
  | .obj fs => do
      let i ← optString fs "image"
      let tg ← reqField fs "target" >>= Target.decode "target"
      let st ← optU8 fs "state"
      pure ⟨i, tg, st⟩
  | _ => .error (.invalidType "payload")

/-- The state to set as part of a `SetState` message. -/
structure StatePayload where
  state : Fin 256
deriving DecidableEq, Repr

/-- Serializer for `StatePayload`. -/
def StatePayload.toJson (p : StatePayload) : Json := .obj [("state", u8Json p.state)]

/-- Deserializer for `StatePayload`. -/
def StatePayload.decode : Json → Except DecodeError StatePayload
  | .obj fs => do
      let s ← reqU8 fs "state"
      pure ⟨s⟩
  | _ => .error (.invalidType "payload")

/-- The profile to activate as part of a `SwitchToProfile` message. -/
structure ProfilePayload where
  profile : String
deriving DecidableEq, Repr

/-- Serializer for `ProfilePayload`. -/
def ProfilePayload.toJson (p : ProfilePayload) : Json := .obj [("profile", .str p.profile)]

/-- Deserializer for `ProfilePayload`. -/
def ProfilePayload.decode : Json → Except DecodeError ProfilePayload
  | .obj fs => do
      let s ← reqString fs "profile"
      pure ⟨s⟩
  | _ => .error (.invalidType "payload")

/-- The URL to launch as part of an `OpenUrl` message. -/
structure UrlPayload where
  url : String
deriving DecidableEq, Repr

/-- Serializer for `UrlPayload`. -/
def UrlPayload.toJson (p : UrlPayload) : Json := .obj [("url", .str p.url)]

/-- Deserializer for `UrlPayload`. -/
def UrlPayload.decode : Json → Except DecodeError UrlPayload
  | .obj fs => do
      let s ← reqString fs "url"
      pure ⟨s⟩
  | _ => .error (.invalidType "payload")

/-- A log message. -/
structure LogMessagePayload where
  message : String
deriving DecidableEq, Repr

/-- Serializer for `LogMessagePayload`. -/
def LogMessagePayload.toJson (p : LogMessagePayload) : Json :=
  .obj [("message", .str p.message)]

/-- Deserializer for `LogMessagePayload`. -/
def LogMessagePayload.decode : Json → Except DecodeError LogMessagePayload
  | .obj fs => do
      let s ← reqString fs "message"
      pure ⟨s⟩
  | _ => .error (.invalidType "payload")

/-- A layout update message. -/
structure SetFeedbackLayoutPayload where
  layout : String
deriving DecidableEq, Repr

/-- Serializer for `SetFeedbackLayoutPayload`. -/
def SetFeedbackLayoutPayload.toJson (p : SetFeedbackLayoutPayload) : Json :=
  .obj [("layout", .str p.layout)]

/-- Deserializer for `SetFeedbackLayoutPayload`. -/
def SetFeedbackLayoutPayload.decode : Json → Except DecodeError SetFeedbackLayoutPayload
  | .obj fs => do
      let s ← reqString fs "layout"
      pure ⟨s⟩
  | _ => .error (.invalidType "payload")

/-- A trigger description update message (four plain `Option` fields,
serialized as `null` when `None`). -/
structure SetTriggerDescriptionPayload where
  long_touch : Option String
  push : Option String
  rotate : Option String
  touch : Option String
deriving DecidableEq, Repr

/-- Serializer for `SetTriggerDescriptionPayload`. -/
def SetTriggerDescriptionPayload.toJson (p : SetTriggerDescriptionPayload) : Json :=
  .obj [("longTouch", optStrJson p.long_touch), ("push", optStrJson p.push),
    ("rotate", optStrJson p.rotate), ("touch", optStrJson p.touch)]

/-- Deserializer for `SetTriggerDescriptionPayload`. -/
def SetTriggerDescriptionPayload.decode : Json → Except DecodeError SetTriggerDescriptionPayload
  | .obj fs => do
      let lt ← optString fs "longTouch"
      let pu ← optString fs "push"
      let ro ← optString fs "rotate"
      let to2 ← optString fs "touch"
      pure ⟨lt, pu, ro, to2⟩
  | _ => .error (.invalidType "payload")

/-- A message to be sent to the Stream Deck software: the internally
tagged union of `src/lib.rs` (tag field `event`, camelCase variant
names). -/
inductive MessageOut where
  | setTitle (context : String) (payload : TitlePayload)
  | setImage (context : String) (payload : ImagePayload)
  | showAlert (context : String)
  | showOk (context : String)
  | getSettings (context : String)
  | setSettings (context : String) (payload : Json)
  | setState (context : String) (payload : StatePayload)
  | sendToPropertyInspector (action context : String) (payload : Json)
  | switchToProfile (context device : String) (payload : ProfilePayload)
  | openUrl (payload : UrlPayload)
  | getGlobalSettings (context : String)
  | setGlobalSettings (context : String) (payload : Json)
  | logMessage (payload : LogMessagePayload)
  | setFeedback (context : String) (payload : Json)
  | setFeedbackLayout (context : String) (payload : SetFeedbackLayoutPayload)
  | setTriggerDescription (context : String) (payload : SetTriggerDescriptionPayload)
deriving Repr

/-- Serializer for `MessageOut`: the `event` tag first, then the variant
fields in declaration order. -/
def MessageOut.encode : MessageOut → Json
  | .setTitle c p =>
      .obj [("event", .str "setTitle"), ("context", .str c), ("payload", p.toJson)]
  | .setImage c p =>
      .obj [("event", .str "setImage"), ("context", .str c), ("payload", p.toJson)]
  | .showAlert c => .obj [("event", .str "showAlert"), ("context", .str c)]
  | .showOk c => .obj [("event", .str "showOk"), ("context", .str c)]
  | .getSettings c => .obj [("event", .str "getSettings"), ("context", .str c)]
  | .setSettings c p =>
      .obj [("event", .str "setSettings"), ("context", .str c), ("payload", p)]
  | .setState c p =>
      .obj [("event", .str "setState"), ("context", .str c), ("payload", p.toJson)]
  | .sendToPropertyInspector a c p =>
      .obj [("event", .str "sendToPropertyInspector"), ("action", .str a),
        ("context", .str c), ("payload", p)]
  | .switchToProfile c d p =>
      .obj [("event", .str "switchToProfile"), ("context", .str c), ("device", .str d),
        ("payload", p.toJson)]
  | .openUrl p => .obj [("event", .str "openUrl"), ("payload", p.toJson)]
  | .getGlobalSettings c =>
      .obj [("event", .str "getGlobalSettings"), ("context", .str c)]
  | .setGlobalSettings c p =>
      .obj [("event", .str "setGlobalSettings"), ("context", .str c), ("payload", p)]
  | .logMessage p => .obj [("event", .str "logMessage"), ("payload", p.toJson)]
  | .setFeedback c p =>
      .obj [("event", .str "setFeedback"), ("context", .str c), ("payload", p)]
  | .setFeedbackLayout c p =>
      .obj [("event", .str "setFeedbackLayout"), ("context", .str c), ("payload", p.toJson)]
  | .setTriggerDescription c p =>
      .obj [("event", .str "setTriggerDescription"), ("context", .str c),
        ("payload", p.toJson)]

/-- Decode the outbound variant selected by the tag; the outbound union
has no catch-all, so an unrecognized tag is an `unknown variant` error. -/
def MessageOut.decodeTagged (t : String) (fs : List (String × Json)) :
    Except DecodeError MessageOut :=
  if t = "setTitle" then do
    let c ← reqString fs "context"
    let p ← reqField fs "payload" >>= TitlePayload.decode
    pure (.setTitle c p)
  else if t = "setImage" then do
    let c ← reqString fs "context"
    let p ← reqField fs "payload" >>= ImagePayload.decode
    pure (.setImage c p)
  else if t = "showAlert" then do
    let c ← reqString fs "context"
    pure (.showAlert c)
  else if t = "showOk" then do
    let c ← reqString fs "context"
    pure (.showOk c)
  else if t = "getSettings" then do
    let c ← reqString fs "context"
    pure (.getSettings c)
  else if t = "setSettings" then do
    let c ← reqString fs "context"
    let p ← reqField fs "payload"
    pure (.setSettings c p)
  else if t = "setState" then do
    let c ← reqString fs "context"
    let p ← reqField fs "payload" >>= StatePayload.decode
    pure (.setState c p)
  else if t = "sendToPropertyInspector" then do
    let a ← reqString fs "action"
    let c ← reqString fs "context"
    let p ← reqField fs "payload"
    pure (.sendToPropertyInspector a c p)
  else if t = "switchToProfile" then do
    let c ← reqString fs "context"
    let d ← reqString fs "device"
    let p ← reqField fs "payload" >>= ProfilePayload.decode
    pure (.switchToProfile c d p)
  else if t = "openUrl" then do
    let p ← reqField fs "payload" >>= UrlPayload.decode
    pure (.openUrl p)
  else if t = "getGlobalSettings" then do
    let c ← reqString fs "context"
    pure (.getGlobalSettings c)
  else if t = "setGlobalSettings" then do
    let c ← reqString fs "context"
    let p ← reqField fs "payload"
    pure (.setGlobalSettings c p)
  else if t = "logMessage" then do
    let p ← reqField fs "payload" >>= LogMessagePayload.decode
    pure (.logMessage p)
  else if t = "setFeedback" then do
    let c ← reqString fs "context"
    let p ← reqField fs "payload"
    pure (.setFeedback c p)
  else if t = "setFeedbackLayout" then do
    let c ← reqString fs "context"
    let p ← reqField fs "payload" >>= SetFeedbackLayoutPayload.decode
    pure (.setFeedbackLayout c p)
  else if t = "setTriggerDescription" then do
    let c ← reqString fs "context"
    let p ← reqField fs "payload" >>= SetTriggerDescriptionPayload.decode
    pure (.setTriggerDescription c p)
  else .error (.unknownVariant t)

/-- Decode one outbound text frame to a `MessageOut` (the derived
`Deserialize` of the outbound union). -/
def MessageOut.decode (j : Json) : Except DecodeError MessageOut :=
  match j with
  | .obj fs =>
      match scanEvent fs none with
      | .error e => .error e
      | .ok none => .error (.missingField "event")
      | .ok (some t) => MessageOut.decodeTagged t fs
  | _ => .error (.invalidType "message")

/-! ## The duplex socket stream (src/socket.rs, `impl Stream for StreamDeckSocket`)

A websocket frame's text payload is modelled as its parsed JSON value
(`serde_json::from_str` = standard JSON text parse, then the tagged
decode modelled by `Message.decode`; the claims quantify over well-formed
JSON object frames).  The inner websocket stream is modelled as a script
of poll responses consumed in order. -/

/-- A `tungstenite::Message` frame. -/
inductive WsMessage where
  | text (content : Json)
  | binary
  | ping
  | pong
deriving Repr

/-- One response of the inner websocket stream's `poll`. -/
inductive InnerEvent where
  | item (m : WsMessage)
  | closed
  | notReady
  | wsError (e : String)
deriving Repr

/-- The outcome of one `poll` of the `StreamDeckSocket` stream:
an item, `Err(BadMessage)`, end of stream, not ready, or
`Err(WebSocketError)`. -/
inductive PollOut where
  | msg (m : Message)
  | decodeBad (e : DecodeError)
  | ended
  | notReady
  | wsFailure (e : String)
deriving Repr

/-- What one text frame contributes: the decoded message, or a
`BadMessage` error scoped to this frame. -/
def deliverText (j : Json) : PollOut :=
  match Message.decode j with
  | .ok m => .msg m
  | .error e => .decodeBad e

/-- The `poll` loop of the `StreamDeckSocket` stream: decode a text
frame, silently skip any other frame and poll again, surface close /
not-ready / websocket errors; returns the outcome and the rest of the
inner script (an exhausted script behaves as not-ready). -/
def socketPoll : List InnerEvent → PollOut × List InnerEvent
  | [] => (.notReady, [])
  | .item (.text j) :: rest => (deliverText j, rest)
  | .item _ :: rest => socketPoll rest
  | .closed :: rest => (.ended, rest)
  | .notReady :: rest => (.notReady, rest)
  | .wsError e :: rest => (.wsFailure e, rest)

/-! ## Addresses (src/socket.rs, `Address`) and connection establishment -/

/-- The host of a parsed URL (`url::Host`). -/
inductive UrlHost where
  | domain (name : String)
  | ipv4 (addr : Nat)
  | ipv6 (addr : Nat)
deriving DecidableEq, Repr

/-- A parsed URL, restricted to what the connect path reads: scheme,
host, and the explicit port.  As in the `url` crate, a port equal to the
scheme's known default is stored as `none`. -/
structure Url where
  scheme : String
  host : UrlHost
  port : Option Nat
deriving DecidableEq, Repr

/-- Known default ports of the `url` crate. -/
def knownDefaultPort (scheme : String) : Option Nat :=
  if scheme = "http" then some 80
  else if scheme = "https" then some 443
  else if scheme = "ws" then some 80
  else if scheme = "wss" then some 443
  else if scheme = "ftp" then some 21
  else none

/-- Rust `Url::set_port(Some(p))` (for schemes that accept a port): a port
equal to the known default is normalized away. -/
def Url.set_port (u : Url) (p : Nat) : Url :=
  { u with port := if knownDefaultPort u.scheme = some p then none else some p }

/-- Rust `Url::port_or_known_default`. -/
def Url.port_or_known_default (u : Url) : Option Nat :=
  match u.port with
  | some p => some p
  | none => knownDefaultPort u.scheme

/-- An address to connect to (`pub struct Address { pub url: Url }`). -/
structure Address where
  url : Url
deriving DecidableEq, Repr

/-- The `impl From<Url> for Address`: the explicit URL is used as-is. -/
def Address.ofUrl (u : Url) : Address := ⟨u⟩

/-- The `impl From<u16> for Address`: parse `ws://localhost` (scheme `ws`,
domain host `localhost`, no explicit port) and set the given port. -/
def Address.ofPort (p : Nat) : Address :=
  ⟨Url.set_port { scheme := "ws", host := .domain "localhost", port := none } p⟩

/-- The host/port pair produced by `url.with_default_port(|_| Err(()))`. -/
structure Endpoint where
  host : UrlHost
  port : Nat
deriving DecidableEq, Repr

/-- Rust `url.with_default_port(|_| Err(()))`: the explicit port, or the
scheme's known default, or the error of the supplied callback. -/
def resolveEndpoint (u : Url) : Except Unit Endpoint :=
  match u.port_or_known_default with
  | some p => .ok ⟨u.host, p⟩
  | none => .error ()

/-- Errors of connection establishment (`enum ConnectError`); the inner
transport diagnostics are kept as opaque strings. -/
inductive ConnectError where
  | unsupportedScheme (scheme : String)
  | connectionError (e : String)
  | protocolError (e : String)
  | sendError (e : String)
deriving DecidableEq, Repr

/-- The registration handshake struct (`struct Registration`), and the
JSON text frame `serde_json::to_string` produces from it: exactly the
two fields `event` and `uuid`, in that order. -/
structure Registration where
  event : String
  uuid : String
deriving DecidableEq, Repr

/-- Serializer for `Registration`. -/
def Registration.toJson (r : Registration) : Json :=
  .obj [("event", .str r.event), ("uuid", .str r.uuid)]

/-- The states of the connect future (`enum ConnectState`): the scheme
error detected at `connect` time, connecting (the TCP future), the
websocket upgrade, and sending the registration frame (the `Send` future
holds the frame being sent). -/
inductive ConnectState where
  | unsupportedScheme (scheme : String)
  | connecting (url : Url) (event uuid : String)
  | negotiating (event uuid : String)
  | registering (frame : WsMessage)
deriving Repr

/-- The connect future (`pub struct Connect`): `state` is taken on every
poll and only restored on not-ready, so a completed future holds
`none`. -/
structure Connect where
  state : Option ConnectState
deriving Repr

/-- Rust `StreamDeckSocket::connect`: a `ws` URL starts the TCP connect, any
other scheme is remembered as an `UnsupportedScheme` failure (no I/O is
started for it). -/
def StreamDeckSocket.connect (address : Address) (event uuid : String) : Connect :=
  ⟨some (if address.url.scheme = "ws"
      then .connecting address.url event uuid
      else .unsupportedScheme address.url.scheme)⟩

/-- One response of an inner future's `poll` (TCP connect, websocket
upgrade, or registration send), with I/O failures as opaque strings. -/
inductive StepResult where
  | ready
  | notReady
  | ioError (e : String)
deriving DecidableEq, Repr

/-- The result of polling the connect future: the socket is ready, an
establishment error, not ready, or the "tried to poll consumed future"
panic. -/
inductive PollRes where
  | ok
  | err (e : ConnectError)
  | notReady
  | panicked
deriving DecidableEq, Repr

/-- The loop body of `<Connect as Future>::poll`, driven by a script of
inner-poll responses (consumed one per inner poll; an exhausted script
behaves as not-ready).  Returns the state left in the future (`none`
after completion), the poll result, and the outbound frames flushed by
this poll: the registration frame is flushed exactly when the send
future completes, at which point the socket is yielded. -/
def pollLoop : ConnectState → List StepResult → Option ConnectState × PollRes × List WsMessage
  | .unsupportedScheme s, _ => (none, .err (.unsupportedScheme s), [])
  | .connecting url e u, [] => (some (.connecting url e u), .notReady, [])
  | .connecting url e u, r :: env =>
      match r with
      | .ready => pollLoop (.negotiating e u) env
      | .notReady => (some (.connecting url e u), .notReady, [])
      | .ioError msg => (none, .err (.connectionError msg), [])
  | .negotiating e u, [] => (some (.negotiating e u), .notReady, [])
  | .negotiating e u, r :: env =>
      match r with
      | .ready => pollLoop (.registering (.text (Registration.toJson ⟨e, u⟩))) env
      | .notReady => (some (.negotiating e u), .notReady, [])
      | .ioError msg => (none, .err (.protocolError msg), [])
  | .registering f, [] => (some (.registering f), .notReady, [])
  | .registering f, r :: _ =>
      match r with
      | .ready => (none, .ok, [f])
      | .notReady => (some (.registering f), .notReady, [])
      | .ioError msg => (none, .err (.sendError msg), [])

/-- One call to `<Connect as Future>::poll`: polling a consumed future
panics. -/
def Connect.poll (c : Connect) (env : List StepResult) :
    Connect × PollRes × List WsMessage :=
  match c.state with
  | none => (⟨none⟩, .panicked, [])
  | some s =>
      let r := pollLoop s env
      (⟨r.1⟩, r.2.1, r.2.2)

/-- Repeatedly poll the connect future (one script per poll), as an
executor does, stopping at the first completed poll; accumulates every
outbound frame flushed along the way. -/
def runConnect (c : Connect) (envs : List (List StepResult)) :
    Connect × PollRes × List WsMessage :=
  match envs with
  | [] => (c, .notReady, [])
  | env :: rest =>
      let r := c.poll env
      match r.2.1 with
      | .notReady =>
          let r2 := runConnect r.1 rest
          (r2.1, r2.2.1, r.2.2 ++ r2.2.2)
      | out => (r.1, out, r.2.2)

/-- Invariant of the connect states reachable from
`StreamDeckSocket.connect _ event uuid`: the pending stages still carry
the caller's event name and uuid, and the send stage holds exactly the
registration text frame built from them. -/
def stateCarries (event uuid : String) : ConnectState → Prop
  | .unsupportedScheme _ => True
  | .connecting _ e u => e = event ∧ u = uuid
  | .negotiating e u => e = event ∧ u = uuid
  | .registering f => f = .text (Registration.toJson ⟨event, uuid⟩)

section ColorLemmas

set_option maxRecDepth 10000 in
lemma fromStrRadix16_hexByte : ∀ m : Fin 256, fromStrRadix16 (hexByte m) = some m := by
  decide

lemma utf8Size_hexDigitChar : ∀ d < 16, (hexDigitChar d).utf8Size = 1 := by decide

lemma byteLen_ascii {s : RStr} (h : asciiStr s) : byteLen s = s.length := by
  induction s with
  | nil => rfl
  | cons c rest ih =>
      have hc := h c (List.mem_cons_self c rest)
      have hr : asciiStr rest := fun d hd => h d (List.mem_cons_of_mem c hd)
      have ih' := ih hr
      simp [byteLen] at ih' ⊢
      omega

lemma dropBytes_ascii {s : RStr} (h : asciiStr s) {a : Nat} (ha : a ≤ s.length) :
    dropBytes a s = some (s.drop a) := by
  induction s generalizing a with
  | nil =>
      have ha0 : a = 0 := by simpa using ha
      subst ha0
      rfl
  | cons c rest ih =>
      match a with
      | 0 => rfl
      | a + 1 =>
          have hc := h c (List.mem_cons_self c rest)
          have hr : asciiStr rest := fun d hd => h d (List.mem_cons_of_mem c hd)
          simp only [List.length_cons] at ha
          have ih' : dropBytes a rest = some (rest.drop a) := ih hr (by omega)
          simp [dropBytes, hc, ih']

lemma takeBytes_ascii {s : RStr} (h : asciiStr s) {b : Nat} (hb : b ≤ s.length) :
    takeBytes b s = some (s.take b) := by
  induction s generalizing b with
  | nil =>
      have hb0 : b = 0 := by simpa using hb
      subst hb0
      rfl
  | cons c rest ih =>
      match b with
      | 0 => rfl
      | b + 1 =>
          have hc := h c (List.mem_cons_self c rest)
          have hr : asciiStr rest := fun d hd => h d (List.mem_cons_of_mem c hd)
          simp only [List.length_cons] at hb
          have ih' : takeBytes b rest = some (rest.take b) := ih hr (by omega)
          simp [takeBytes, hc, ih']

lemma sliceBytes_ascii {s : RStr} (h : asciiStr s) {a b : Nat} (hab : a ≤ b)
    (hb : b ≤ s.length) : sliceBytes s a b = some ((s.drop a).take (b - a)) := by
  have hdrop : asciiStr (s.drop a) := fun c hc => h c (List.mem_of_mem_drop hc)
  rw [sliceBytes, dropBytes_ascii h (le_trans hab hb)]
  simpa using takeBytes_ascii hdrop (by simp [List.length_drop]; omega)

lemma hexByte_ascii (n : Fin 256) : ∀ c ∈ hexByte n, c.utf8Size = 1 := by
  intro c hc
  have hn := n.isLt
  have h1 : n.val / 16 < 16 := by omega
  have h2 : n.val % 16 < 16 := by omega
  simp [hexByte] at hc
  rcases hc with rfl | rfl
  · exact utf8Size_hexDigitChar _ h1
  · exact utf8Size_hexDigitChar _ h2

lemma serialize_ascii (c : Color) : asciiStr (Color.serialize c) := by
  cases c with
  | rgb r g b =>
      intro ch hch
      simp [Color.serialize] at hch
      rcases hch with rfl | h | h | h
      · decide
      · exact hexByte_ascii r ch h
      · exact hexByte_ascii g ch h
      · exact hexByte_ascii b ch h
  | rgba r g b a =>
      intro ch hch
      simp [Color.serialize] at hch
      rcases hch with rfl | h | h | h | h
      · decide
      · exact hexByte_ascii r ch h
      · exact hexByte_ascii g ch h
      · exact hexByte_ascii b ch h
      · exact hexByte_ascii a ch h

lemma parse_component_hexByte (n : Fin 256) : parse_component (hexByte n) = .ok n := by
  simp [parse_component, fromStrRadix16_hexByte]

lemma color_decode_encode (c : Color) :
    Color.visit_str (Color.serialize c) = some (.ok c) := by
  have hasc := serialize_ascii c
  cases c with
  | rgb r g b =>
      set s := Color.serialize (.rgb r g b) with hs
      have hsl : s = ['#'] ++ hexByte r ++ hexByte g ++ hexByte b := by
        simp [hs, Color.serialize]
      have hslen : s.length = 7 := by simp [hsl, hexByte]
      have hlen : byteLen s = 7 := by rw [byteLen_ascii hasc, hslen]
      have h01 : sliceBytes s 0 1 = some ['#'] := by
        rw [sliceBytes_ascii hasc (by omega) (by omega)]
        simp [hsl, hexByte]
      have h13 : sliceBytes s 1 3 = some (hexByte r) := by
        rw [sliceBytes_ascii hasc (by omega) (by omega)]
        simp [hsl, hexByte]
      have h35 : sliceBytes s 3 5 = some (hexByte g) := by
        rw [sliceBytes_ascii hasc (by omega) (by omega)]
        simp [hsl, hexByte]
      have h57 : sliceBytes s 5 7 = some (hexByte b) := by
        rw [sliceBytes_ascii hasc (by omega) (by omega)]
        simp [hsl, hexByte]
      rw [Color.visit_str, hlen]
      simp [parse_rgb, slicePanic, h01, h13, h35, h57, pbind, parse_component_hexByte]
  | rgba r g b a =>
      set s := Color.serialize (.rgba r g b a) with hs
      have hsl : s = ['#'] ++ hexByte r ++ hexByte g ++ hexByte b ++ hexByte a := by
        simp [hs, Color.serialize]
      have hslen : s.length = 9 := by simp [hsl, hexByte]
      have hlen : byteLen s = 9 := by rw [byteLen_ascii hasc, hslen]
      have h01 : sliceBytes s 0 1 = some ['#'] := by
        rw [sliceBytes_ascii hasc (by omega) (by omega)]
        simp [hsl, hexByte]
      have h13 : sliceBytes s 1 3 = some (hexByte r) := by
        rw [sliceBytes_ascii hasc (by omega) (by omega)]
        simp [hsl, hexByte]
      have h35 : sliceBytes s 3 5 = some (hexByte g) := by
        rw [sliceBytes_ascii hasc (by omega) (by omega)]
        simp [hsl, hexByte]
      have h57 : sliceBytes s 5 7 = some (hexByte b) := by
        rw [sliceBytes_ascii hasc (by omega) (by omega)]
        simp [hsl, hexByte]
      have h79 : sliceBytes s 7 9 = some (hexByte a) := by
        rw [sliceBytes_ascii hasc (by omega) (by omega)]
        simp [hsl, hexByte]
      rw [Color.visit_str, hlen]
      simp [parse_rgb, slicePanic, h01, h13, h35, h57, h79, pbind, parse_component_hexByte]

lemma visit_str_bad_length {v : RStr} (h7 : byteLen v ≠ 7) (h9 : byteLen v ≠ 9) :
    Color.visit_str v = some (.error (.invalidLength (byteLen v))) := by
  rw [Color.visit_str]
  split
  · omega
  · omega
  · simp_all

lemma visit_str_no_hash {ch : Char} {rest : RStr} (hsz : ch.utf8Size = 1) (hne : ch ≠ '#')
    (hlen : byteLen (ch :: rest) = 7 ∨ byteLen (ch :: rest) = 9) :
    Color.visit_str (ch :: rest) = some (.error .customNoHash) := by
  have h01 : sliceBytes (ch :: rest) 0 1 = some [ch] := by
    simp [sliceBytes, dropBytes, takeBytes, hsz]
  have hneq : [ch] ≠ ['#'] := by simpa using hne
  rcases hlen with hl | hl <;>
    · rw [Color.visit_str, hl]
      simp [parse_rgb, slicePanic, h01, pbind, hneq]

lemma visit_str_dispatch {v : RStr} {col : Color}
    (h : Color.visit_str v = some (.ok col)) :
    (byteLen v = 7 → ∃ r g b, col = .rgb r g b)
    ∧ (byteLen v = 9 → ∃ r g b a, col = .rgba r g b a) := by
  constructor
  · intro hl
    rw [Color.visit_str, hl] at h
    rcases hp : parse_rgb v with _ | e | t <;> simp [hp, pbind] at h
    exact ⟨t.1, t.2.1, t.2.2, h.symm⟩
  · intro hl
    rw [Color.visit_str, hl] at h
    rcases hp : parse_rgb v with _ | e | t <;> simp [hp, pbind] at h
    rcases hs : sliceBytes v 7 9 with _ | av <;> simp [hs, slicePanic, pbind] at h
    rcases hc : parse_component av with e | a <;> simp [hc, pbind] at h
    exact ⟨t.1, t.2.1, t.2.2, a, h.symm⟩

end ColorLemmas

/-! ## Claim C4 and C9: the Color codec -/

/-- C4 (amended): color decoding dispatches on byte length — a decoded
7-byte string only yields RGB and a 9-byte string only RGBA; any string
of byte length other than 7 or 9 is rejected with an `invalid_length`
error; a 7- or 9-byte string whose first character is a single-byte
character other than `#` is rejected with the custom missing-`#` error
(when the first character is multi-byte the code instead panics, see the
counterexample); and decode(encode(c)) = c for every RGB and RGBA color. -/
theorem C4_color_codec :
    (∀ c : Color, Color.visit_str (Color.serialize c) = some (.ok c))
    ∧ (∀ v : RStr, byteLen v ≠ 7 → byteLen v ≠ 9 →
        Color.visit_str v = some (.error (.invalidLength (byteLen v))))
    ∧ (∀ (ch : Char) (rest : RStr), ch.utf8Size = 1 → ch ≠ '#' →
        (byteLen (ch :: rest) = 7 ∨ byteLen (ch :: rest) = 9) →
        Color.visit_str (ch :: rest) = some (.error .customNoHash))
    ∧ (∀ (v : RStr) (col : Color), Color.visit_str v = some (.ok col) →
        ((byteLen v = 7 → ∃ r g b, col = .rgb r g b)
          ∧ (byteLen v = 9 → ∃ r g b a, col = .rgba r g b a))) :=
  ⟨color_decode_encode, fun _ => visit_str_bad_length,
   fun _ _ h1 h2 h3 => visit_str_no_hash h1 h2 h3, fun _ _ h => visit_str_dispatch h⟩

/-- C4 counterexample: the 7-byte string `"é23456"` lacks a leading `#`
but is not rejected with an error — the slice `&value[0..1]` falls inside
the two-byte `é` and the code panics (modelled by `none`). -/
theorem C4_counterexample :
    byteLen ['é', '2', '3', '4', '5', '6'] = 7
    ∧ (('é' == '#') = false)
    ∧ Color.visit_str ['é', '2', '3', '4', '5', '6'] = none :=
  ⟨by decide, by decide, rfl⟩

/-- C4 witness: a concrete round-trip, a concrete bad length, a concrete
missing `#`, and a concrete dispatch, via the parts of `C4_color_codec`. -/
theorem C4_witness :
    Color.visit_str (Color.serialize (Color.rgb 18 52 86)) = some (.ok (Color.rgb 18 52 86))
    ∧ Color.visit_str ['a', 'b'] = some (.error (.invalidLength (byteLen ['a', 'b'])))
    ∧ Color.visit_str ['x', '1', '2', '3', '4', '5', '6'] = some (.error .customNoHash)
    ∧ (∃ r g b, Color.rgb 18 52 86 = .rgb r g b) :=
  ⟨C4_color_codec.1 _,
   C4_color_codec.2.1 _ (by decide) (by decide),
   C4_color_codec.2.2.1 'x' ['1', '2', '3', '4', '5', '6'] (by decide) (by decide)
     (Or.inl (by decide)),
   (C4_color_codec.2.2.2 _ _ (C4_color_codec.1 (Color.rgb 18 52 86))).1 (by decide)⟩

/-- C9: decoding is not total — on the 7-byte input `"#2é345"` the slice
`&value[1..3]` ends inside the two-byte `é`, which is a Rust slicing
panic (modelled by `none`), so the deserializer neither returns a color
nor a decode error there. -/
theorem C9_panic_evaluation :
    byteLen ['#', '2', 'é', '3', '4', '5'] = 7
    ∧ Color.visit_str ['#', '2', 'é', '3', '4', '5'] = none :=
  ⟨by decide, rfl⟩

/-! ## Claim C6: address resolution -/

/-- C6: resolving a valid numeric port `p` yields the `ws` scheme, the
loopback host `localhost`, and (through `with_default_port`, which fills
the known default back in when `set_port` normalized it away) the port
exactly `p`; an explicit URL is used as-is.  Both conversions are pure
functions of their input. -/
theorem C6_address_resolution :
    (∀ p : Nat, p < 65536 →
      ((Address.ofPort p).url.scheme = "ws"
        ∧ (Address.ofPort p).url.host = .domain "localhost"
        ∧ resolveEndpoint (Address.ofPort p).url = .ok ⟨.domain "localhost", p⟩))
    ∧ (∀ u : Url, (Address.ofUrl u).url = u) := by
  constructor
  · intro p _
    refine ⟨rfl, rfl, ?_⟩
    by_cases h : p = 80
    · subst h
      rfl
    · have hne : knownDefaultPort "ws" ≠ some p := by
        simp [knownDefaultPort]
        omega
      simp [Address.ofPort, Url.set_port, resolveEndpoint, Url.port_or_known_default, hne]
  · intro u
    rfl

/-- C6 witness: the spec's example port 8000. -/
theorem C6_witness :
    (Address.ofPort 8000).url.scheme = "ws"
    ∧ (Address.ofPort 8000).url.host = .domain "localhost"
    ∧ resolveEndpoint (Address.ofPort 8000).url = .ok ⟨.domain "localhost", 8000⟩ :=
  C6_address_resolution.1 8000 (by decide)

/-! ## Claims C2, C7, C10: connection establishment -/

section ConnectLemmas

lemma pollLoop_done_state_none :
    ∀ (env : List StepResult) (s : ConnectState),
      (pollLoop s env).2.1 ≠ .notReady → (pollLoop s env).1 = none := by
  intro env
  induction env with
  | nil => intro s h; cases s <;> simp [pollLoop] at h ⊢
  | cons r env ih =>
      intro s h
      cases s <;> cases r <;> simp [pollLoop] at h ⊢ <;>
        first
          | rfl
          | exact ih _ h

lemma pollLoop_spec (event uuid : String) :
    ∀ (env : List StepResult) (s : ConnectState), stateCarries event uuid s →
      ((pollLoop s env).2.1 = .ok →
        (pollLoop s env).2.2 = [.text (Registration.toJson ⟨event, uuid⟩)])
      ∧ ((pollLoop s env).2.1 ≠ .ok → (pollLoop s env).2.2 = [])
      ∧ (∀ s', (pollLoop s env).1 = some s' → stateCarries event uuid s')
      ∧ (pollLoop s env).2.1 ≠ .panicked := by
  intro env
  induction env with
  | nil =>
      intro s hs
      cases s <;> simp [pollLoop, stateCarries] at hs ⊢ <;> simp [hs]
  | cons r env ih =>
      intro s hs
      cases s with
      | unsupportedScheme sch => simp [pollLoop, stateCarries]
      | connecting url e u =>
          obtain ⟨he, hu⟩ := hs
          subst he
          subst hu
          cases r with
          | ready => exact ih (.negotiating e u) ⟨rfl, rfl⟩
          | notReady => simp [pollLoop, stateCarries]
          | ioError msg => simp [pollLoop]
      | negotiating e u =>
          obtain ⟨he, hu⟩ := hs
          subst he
          subst hu
          cases r with
          | ready => exact ih (.registering (.text (Registration.toJson ⟨e, u⟩))) rfl
          | notReady => simp [pollLoop, stateCarries]
          | ioError msg => simp [pollLoop]
      | registering f =>
          subst hs
          cases r with
          | ready => simp [pollLoop]
          | notReady => simp [pollLoop, stateCarries]
          | ioError msg => simp [pollLoop]

lemma runConnect_spec (event uuid : String) :
    ∀ (envs : List (List StepResult)) (c : Connect),
      (∀ s, c.state = some s → stateCarries event uuid s) →
      ((runConnect c envs).2.1 = .ok →
        (runConnect c envs).2.2 = [.text (Registration.toJson ⟨event, uuid⟩)])
      ∧ ((runConnect c envs).2.1 ≠ .ok → (runConnect c envs).2.2 = []) := by
  intro envs
  induction envs with
  | nil =>
      intro c _
      simp [runConnect]
  | cons env rest ih =>
      intro c hc
      obtain ⟨st⟩ := c
      cases st with
      | none => simp [runConnect, Connect.poll]
      | some s =>
          have hspec := pollLoop_spec event uuid env s (hc s rfl)
          rcases hout : (pollLoop s env).2.1 with _ | e | _ | _
          · simp [runConnect, Connect.poll, hout, hspec.1 hout]
          · have hf : (pollLoop s env).2.2 = [] := hspec.2.1 (by simp [hout])
            simp [runConnect, Connect.poll, hout, hf]
          · have hf : (pollLoop s env).2.2 = [] := hspec.2.1 (by simp [hout])
            have hrec := ih ⟨(pollLoop s env).1⟩ (fun s' hs' => hspec.2.2.1 s' hs')
            simp [runConnect, Connect.poll, hout, hf]
            exact hrec
          · exact absurd hout hspec.2.2.2

end ConnectLemmas

/-- C2: in every execution of the connect future, if the run completes
successfully then the frames flushed during establishment are exactly one
text frame whose JSON content is exactly
`{"event": <caller event name>, "uuid": <caller uuid>}` — flushed before
the socket is yielded, since the run only returns `ok` after it — and a
run that has not succeeded has flushed no frame at all. -/
theorem C2_registration_frame (a : Address) (event uuid : String)
    (envs : List (List StepResult)) :
    ((runConnect (StreamDeckSocket.connect a event uuid) envs).2.1 = .ok →
      (runConnect (StreamDeckSocket.connect a event uuid) envs).2.2
        = [.text (.obj [("event", .str event), ("uuid", .str uuid)])])
    ∧ ((runConnect (StreamDeckSocket.connect a event uuid) envs).2.1 ≠ .ok →
      (runConnect (StreamDeckSocket.connect a event uuid) envs).2.2 = []) := by
  have h := runConnect_spec event uuid envs (StreamDeckSocket.connect a event uuid) ?_
  · exact h
  · intro s hs
    simp [StreamDeckSocket.connect] at hs
    by_cases hsch : a.url.scheme = "ws" <;> simp [hsch] at hs <;> simp [← hs, stateCarries]

/-- C2 witness: the spec's end-to-end example — port 8000, event
`registerPlugin`, uuid `abc-123` — produces exactly the wire frame
`{"event":"registerPlugin","uuid":"abc-123"}`. -/
theorem C2_witness :
    (runConnect (StreamDeckSocket.connect (Address.ofPort 8000) "registerPlugin" "abc-123")
        [[.ready, .ready, .ready]]).2.2
      = [.text (.obj [("event", .str "registerPlugin"), ("uuid", .str "abc-123")])] :=
  (C2_registration_frame (Address.ofPort 8000) "registerPlugin" "abc-123"
    [[.ready, .ready, .ready]]).1 rfl

/-- C7: each establishment stage maps its failure to its own error, the
future resolves with that error on the very poll where the stage failed
(the rest of the transport script is never consumed), and an
unsupported scheme fails on the first poll for every transport script —
i.e. before any I/O; an error leaves the future consumed, so there is no
internal retry. -/
theorem C7_connect_errors :
    (∀ (a : Address) (event uuid : String) (env : List StepResult), a.url.scheme ≠ "ws" →
      Connect.poll (StreamDeckSocket.connect a event uuid) env
        = (⟨none⟩, .err (.unsupportedScheme a.url.scheme), []))
    ∧ (∀ (a : Address) (event uuid : String) (env : List StepResult) (msg : String),
        a.url.scheme = "ws" →
        Connect.poll (StreamDeckSocket.connect a event uuid) (.ioError msg :: env)
          = (⟨none⟩, .err (.connectionError msg), []))
    ∧ (∀ (event uuid : String) (env : List StepResult) (msg : String),
        pollLoop (.negotiating event uuid) (.ioError msg :: env)
          = (none, .err (.protocolError msg), []))
    ∧ (∀ (f : WsMessage) (env : List StepResult) (msg : String),
        pollLoop (.registering f) (.ioError msg :: env)
          = (none, .err (.sendError msg), []))
    ∧ (∀ (s : ConnectState) (env : List StepResult) (e : ConnectError),
        (pollLoop s env).2.1 = .err e → (pollLoop s env).1 = none) := by
  refine ⟨?_, ?_, ?_, ?_, ?_⟩
  · intro a event uuid env h
    simp [StreamDeckSocket.connect, Connect.poll, h, pollLoop]
  · intro a event uuid env msg h
    simp [StreamDeckSocket.connect, Connect.poll, h, pollLoop]
  · intro event uuid env msg
    rfl
  · intro f env msg
    rfl
  · intro s env e h
    exact pollLoop_done_state_none env s (by simp [h])

/-- C7 witness: each failure stage at a concrete input. -/
theorem C7_witness :
    Connect.poll (StreamDeckSocket.connect
        (Address.ofUrl ⟨"http", .domain "localhost", none⟩) "e" "u") []
      = (⟨none⟩, .err (.unsupportedScheme "http"), [])
    ∧ Connect.poll (StreamDeckSocket.connect (Address.ofPort 8000) "e" "u") [.ioError "refused"]
      = (⟨none⟩, .err (.connectionError "refused"), [])
    ∧ pollLoop (.negotiating "e" "u") [.ioError "handshake"]
      = (none, .err (.protocolError "handshake"), [])
    ∧ pollLoop (.registering (.text .null)) [.ioError "broken"]
      = (none, .err (.sendError "broken"), [])
    ∧ (pollLoop (.unsupportedScheme "http") []).1 = none :=
  ⟨C7_connect_errors.1 _ "e" "u" [] (by decide),
   C7_connect_errors.2.1 _ "e" "u" [] "refused" rfl,
   C7_connect_errors.2.2.1 "e" "u" [] "handshake",
   C7_connect_errors.2.2.2.1 _ [] "broken",
   C7_connect_errors.2.2.2.2 _ [] _ rfl⟩

/-- C10: polling the consumed future panics (the source's
`panic!("tried to poll consumed future")`, modelled by the `panicked`
outcome), and any poll that completes — with the socket or with an
establishment error — leaves the future consumed, so no later poll
returns normally. -/
theorem C10_poll_consumed :
    (∀ env : List StepResult, Connect.poll ⟨none⟩ env = (⟨none⟩, .panicked, []))
    ∧ (∀ (c : Connect) (env env2 : List StepResult),
        ((c.poll env).2.1 = .ok ∨ (∃ e, (c.poll env).2.1 = .err e)) →
        Connect.poll (c.poll env).1 env2 = (⟨none⟩, .panicked, [])) := by
  refine ⟨fun env => rfl, ?_⟩
  intro c env env2 h
  obtain ⟨st⟩ := c
  cases st with
  | none => rcases h with h | ⟨e, h⟩ <;> simp [Connect.poll] at h
  | some s =>
      have hnr : (pollLoop s env).2.1 ≠ .notReady := by
        rcases h with h | ⟨e, h⟩ <;> simp [Connect.poll] at h <;> simp [h]
      have := pollLoop_done_state_none env s hnr
      simp [Connect.poll, this]

/-- C10 witness: a successfully completed connect future panics when
polled again. -/
theorem C10_witness :
    Connect.poll ((StreamDeckSocket.connect (Address.ofPort 8000) "e" "u").poll
        [.ready, .ready, .ready]).1 []
      = (⟨none⟩, .panicked, []) :=
  C10_poll_consumed.2 (StreamDeckSocket.connect (Address.ofPort 8000) "e" "u")
    [.ready, .ready, .ready] [] (Or.inl rfl)

/-! ## Claim C8: the stream skips non-text frames and ends on close -/

/-- C8: a binary, ping or pong frame contributes neither an item nor an
error — the poll loop continues with the rest of the transport script
unchanged; a transport close yields end-of-stream; and conversely the
stream only yields end-of-stream when the script reaches a close,
possibly after skipped non-text frames. -/
theorem C8_nontext_skipped :
    (∀ (f : WsMessage) (q : List InnerEvent), (f = .binary ∨ f = .ping ∨ f = .pong) →
      socketPoll (.item f :: q) = socketPoll q)
    ∧ (∀ q : List InnerEvent, socketPoll (.closed :: q) = (.ended, q))
    ∧ (∀ (q rest : List InnerEvent), socketPoll q = (.ended, rest) →
        ∃ skipped : List WsMessage, q = skipped.map .item ++ .closed :: rest
          ∧ ∀ f ∈ skipped, ∀ j : Json, f ≠ .text j) := by
  refine ⟨?_, fun q => rfl, ?_⟩
  · intro f q h
    rcases h with rfl | rfl | rfl <;> rfl
  · intro q
    induction q with
    | nil => intro rest h; simp [socketPoll] at h
    | cons ev q ih =>
        intro rest h
        cases ev with
        | item m =>
            cases m with
            | text j =>
                rw [socketPoll] at h
                rcases hd : Message.decode j with e | m <;>
                  simp [deliverText, hd] at h
            | binary =>
                obtain ⟨sk, hq, hsk⟩ := ih rest h
                refine ⟨.binary :: sk, by simp [hq], ?_⟩
                intro f hf j
                rcases List.mem_cons.mp hf with rfl | hf2
                · simp
                · exact hsk f hf2 j
            | ping =>
                obtain ⟨sk, hq, hsk⟩ := ih rest h
                refine ⟨.ping :: sk, by simp [hq], ?_⟩
                intro f hf j
                rcases List.mem_cons.mp hf with rfl | hf2
                · simp
                · exact hsk f hf2 j
            | pong =>
                obtain ⟨sk, hq, hsk⟩ := ih rest h
                refine ⟨.pong :: sk, by simp [hq], ?_⟩
                intro f hf j
                rcases List.mem_cons.mp hf with rfl | hf2
                · simp
                · exact hsk f hf2 j
        | closed =>
            rw [socketPoll] at h
            simp only [Prod.mk.injEq] at h
            rw [h.2]
            exact ⟨[], rfl, by simp⟩
        | notReady => rw [socketPoll] at h; simp at h
        | wsError e => rw [socketPoll] at h; simp at h

/-- C8 witness: a skipped ping, a close, and an end-of-stream traced back
to the close through a skipped binary frame. -/
theorem C8_witness :
    socketPoll [.item .ping, .closed] = socketPoll [.closed]
    ∧ socketPoll [.closed] = (.ended, [])
    ∧ ∃ skipped : List WsMessage,
        ([.item .binary, .closed] : List InnerEvent) = skipped.map .item ++ .closed :: []
          ∧ ∀ f ∈ skipped, ∀ j : Json, f ≠ .text j :=
  ⟨C8_nontext_skipped.1 .ping [.closed] (Or.inr (Or.inl rfl)),
   C8_nontext_skipped.2.1 [],
   C8_nontext_skipped.2.2 [.item .binary, .closed] [] rfl⟩

/-! ## Claims C1 and C3: tag dispatch of the inbound decoder -/

section DecodeLemmas

lemma scanEvent_no_event :
    ∀ (fs : List (String × Json)) (acc : Option String),
      (∀ p ∈ fs, p.1 ≠ "event") → scanEvent fs acc = .ok acc := by
  intro fs
  induction fs with
  | nil => intro acc _; rfl
  | cons p rest ih =>
      intro acc h
      obtain ⟨k, v⟩ := p
      have hk : k ≠ "event" := h (k, v) (List.mem_cons_self _ _)
      simp only [scanEvent, if_neg hk]
      exact ih acc (fun p hp => h p (List.mem_cons_of_mem _ hp))

lemma scanEvent_unique :
    ∀ (fs : List (String × Json)) (t : String),
      fs.filter (fun p => p.1 == "event") = [("event", Json.str t)] →
      scanEvent fs none = .ok (some t) := by
  intro fs
  induction fs with
  | nil => intro t h; simp at h
  | cons p rest ih =>
      intro t h
      obtain ⟨k, v⟩ := p
      rw [List.filter_cons] at h
      by_cases hk : k = "event"
      · subst hk
        simp only [beq_self_eq_true, if_pos] at h
        rw [List.cons.injEq] at h
        obtain ⟨hp, hrest⟩ := h
        rw [Prod.mk.injEq] at hp
        rw [hp.2]
        simp only [scanEvent, if_pos rfl]
        exact scanEvent_no_event rest (some t)
          (by
            intro p hp2
            have := List.filter_eq_nil_iff.mp hrest p hp2
            simpa using this)
      · have hkb : (k == "event") = false := by simpa using hk
        rw [hkb] at h
        simp only [if_neg Bool.false_ne_true] at h
        simp only [scanEvent, if_neg hk]
        exact ih t h

lemma bind_ok {α β : Type} {x : Except DecodeError α} {f : α → Except DecodeError β} {b : β}
    (h : (x >>= f) = .ok b) : ∃ a, x = .ok a ∧ f a = .ok b := by
  cases x with
  | error e => simp [Bind.bind, Except.bind] at h
  | ok a => exact ⟨a, rfl, by simpa [Bind.bind, Except.bind] using h⟩

lemma decodeTagged_unrecognized (t : String) (fs : List (String × Json))
    (h : t ∉ recognizedTags) : Message.decodeTagged t fs = .ok .unknown := by
  simp only [recognizedTags, List.mem_cons, List.not_mem_nil, or_false, not_or] at h
  obtain ⟨h1, h2, h3, h4, h5, h6, h7, h8, h9, h10, h11, h12, h13, h14, h15, h16, h17, h18,
    h19⟩ := h
  simp only [Message.decodeTagged, if_neg h1, if_neg h2, if_neg h3, if_neg h4, if_neg h5,
    if_neg h6, if_neg h7, if_neg h8, if_neg h9, if_neg h10, if_neg h11, if_neg h12,
    if_neg h13, if_neg h14, if_neg h15, if_neg h16, if_neg h17, if_neg h18, if_neg h19]

lemma decodeTagged_recognized_ne_unknown (t : String) (fs : List (String × Json))
    (h : t ∈ recognizedTags) : Message.decodeTagged t fs ≠ .ok .unknown := by
  intro hu
  simp only [recognizedTags, List.mem_cons, List.not_mem_nil, or_false] at h
  rcases h with rfl | rfl | rfl | rfl | rfl | rfl | rfl | rfl | rfl | rfl | rfl | rfl | rfl
    | rfl | rfl | rfl | rfl | rfl | rfl <;>
    · simp [Message.decodeTagged] at hu
      repeat obtain ⟨_, _, hu⟩ := bind_ok hu
      simp [Pure.pure, Except.pure] at hu

end DecodeLemmas

/-- C1: decoding a well-formed JSON object (a single string `event` tag)
whose tag is outside the recognized inbound catalogue always succeeds as
the `unknown` catch-all, whatever the other fields hold. -/
theorem C1_unknown_tag_decodes (fs : List (String × Json)) (t : String)
    (hev : fs.filter (fun p => p.1 == "event") = [("event", Json.str t)])
    (hnr : t ∉ recognizedTags) :
    Message.decode (.obj fs) = .ok .unknown := by
  simp only [Message.decode]
  rw [scanEvent_unique fs t hev]
  exact decodeTagged_unrecognized t fs hnr

/-- C1 witness: a hypothetical future event with extra fields decodes to
`unknown`. -/
theorem C1_witness :
    Message.decode (.obj [("event", .str "someFutureEvent"), ("payload", .obj []),
        ("extra", .num 3)]) = .ok .unknown :=
  C1_unknown_tag_decodes _ "someFutureEvent" rfl (by decide)

/-- C3: a recognized tag never decodes to the `unknown` sentinel; a text
frame is delivered from its own decode alone, with the rest of the
transport script untouched (so one malformed frame never blocks or
invalidates later frames); and a frame whose decode fails is surfaced as
the `BadMessage` stream error carrying that decode diagnostic. -/
theorem C3_bad_message_scoped :
    (∀ (fs : List (String × Json)) (t : String),
      fs.filter (fun p => p.1 == "event") = [("event", Json.str t)] →
      t ∈ recognizedTags →
      Message.decode (.obj fs) ≠ .ok .unknown)
    ∧ (∀ (j : Json) (q : List InnerEvent),
        socketPoll (.item (.text j) :: q) = (deliverText j, q))
    ∧ (∀ (j : Json) (e : DecodeError) (q : List InnerEvent),
        Message.decode j = .error e →
        socketPoll (.item (.text j) :: q) = (.decodeBad e, q)) := by
  refine ⟨?_, fun j q => rfl, ?_⟩
  · intro fs t hev ht
    simp only [Message.decode]
    rw [scanEvent_unique fs t hev]
    exact decodeTagged_recognized_ne_unknown t fs ht
  · intro j e q h
    rw [socketPoll]
    simp [deliverText, h]

/-- C3 witness: a `keyDown` frame missing its required `context` field
yields `BadMessage (missing field context)` and leaves the rest of the
stream intact. -/
theorem C3_witness :
    Message.decode (.obj [("event", Json.str "keyDown"), ("action", .str "a")])
      ≠ .ok .unknown
    ∧ socketPoll [.item (.text (.obj [("event", Json.str "keyDown"), ("action", .str "a")])),
        .closed]
      = (.decodeBad (.missingField "context"), [.closed]) :=
  ⟨C3_bad_message_scoped.1 _ "keyDown" rfl (by decide),
   C3_bad_message_scoped.2.2 _ (.missingField "context") [.closed] rfl⟩

/-! ## Claim C5: the outbound round-trip -/

section OutboundLemmas

lemma decodeU8_num (f : String) (m : Fin 256) :
    decodeU8 f (.num (m.val : Int)) = .ok m := by
  have h := m.isLt
  simp only [decodeU8]
  rw [dif_pos ⟨Int.natCast_nonneg _, by exact_mod_cast h⟩]
  exact congrArg Except.ok (Fin.ext (by simp))

lemma Target_decode_toJson (f : String) (t : Target) : Target.decode f t.toJson = .ok t := by
  cases t <;> rfl

lemma TitlePayload_roundtrip (p : TitlePayload) : TitlePayload.decode p.toJson = .ok p := by
  obtain ⟨title, target, state⟩ := p
  cases title <;> cases state <;>
    simp [TitlePayload.toJson, TitlePayload.decode, optString, optU8, decodeOpt, lookupField,
      skipOptU8Field, optStrJson, u8Json, reqField, Target_decode_toJson, decodeString,
      decodeU8_num, Bind.bind, Except.bind, Pure.pure, Except.pure, Except.map]

lemma ImagePayload_roundtrip (p : ImagePayload) : ImagePayload.decode p.toJson = .ok p := by
  obtain ⟨image, target, state⟩ := p
  cases image <;> cases state <;>
    simp [ImagePayload.toJson, ImagePayload.decode, optString, optU8, decodeOpt, lookupField,
      skipOptU8Field, optStrJson, u8Json, reqField, Target_decode_toJson, decodeString,
      decodeU8_num, Bind.bind, Except.bind, Pure.pure, Except.pure, Except.map]

lemma StatePayload_roundtrip (p : StatePayload) : StatePayload.decode p.toJson = .ok p := by
  obtain ⟨state⟩ := p
  simp [StatePayload.toJson, StatePayload.decode, reqU8, reqField, lookupField, u8Json,
    decodeU8_num, Bind.bind, Except.bind, Pure.pure, Except.pure]

lemma ProfilePayload_roundtrip (p : ProfilePayload) : ProfilePayload.decode p.toJson = .ok p :=
  rfl

lemma UrlPayload_roundtrip (p : UrlPayload) : UrlPayload.decode p.toJson = .ok p :=
  rfl

lemma LogMessagePayload_roundtrip (p : LogMessagePayload) :
    LogMessagePayload.decode p.toJson = .ok p :=
  rfl

lemma SetFeedbackLayoutPayload_roundtrip (p : SetFeedbackLayoutPayload) :
    SetFeedbackLayoutPayload.decode p.toJson = .ok p :=
  rfl

lemma SetTriggerDescriptionPayload_roundtrip (p : SetTriggerDescriptionPayload) :
    SetTriggerDescriptionPayload.decode p.toJson = .ok p := by
  obtain ⟨lt, pu, ro, to2⟩ := p
  cases lt <;> cases pu <;> cases ro <;> cases to2 <;> rfl

lemma messageOut_decode_encode (v : MessageOut) :
    MessageOut.decode (MessageOut.encode v) = .ok v := by
  cases v <;>
    simp [MessageOut.encode, MessageOut.decode, scanEvent, MessageOut.decodeTagged,
      reqString, reqField, lookupField, decodeString, TitlePayload_roundtrip,
      ImagePayload_roundtrip, StatePayload_roundtrip, ProfilePayload_roundtrip,
      UrlPayload_roundtrip, LogMessagePayload_roundtrip, SetFeedbackLayoutPayload_roundtrip,
      SetTriggerDescriptionPayload_roundtrip, Bind.bind, Except.bind, Pure.pure, Except.pure]

end OutboundLemmas

/-- C5 (amended): for every constructible outbound variant `v`,
`decode(encode(v)) = v`; hence for every text frame `x` in the image of
the encoder, re-encoding what `x` decodes to reproduces `x` exactly (in
particular up to key order).  (For frames outside the encoder's image
the equation can fail even up to key order, because a decoded-as-`None`
optional field re-encodes as an explicit `null` — see the
counterexample.) -/
theorem C5_outbound_roundtrip :
    (∀ v : MessageOut, MessageOut.decode (MessageOut.encode v) = .ok v)
    ∧ (∀ (x : Json) (v w : MessageOut), x = MessageOut.encode w →
        MessageOut.decode x = .ok v → MessageOut.encode v = x) := by
  refine ⟨messageOut_decode_encode, ?_⟩
  intro x v w hx hd
  subst hx
  rw [messageOut_decode_encode w] at hd
  injection hd with h
  rw [h]

/-- C5 counterexample: the frame
`{"event":"setTitle","context":"c","payload":{"target":0}}` decodes
successfully (missing optional fields become `None`), but re-encoding
produces `"title": null` inside the payload, so the re-encoded frame is
not equal to the original even up to key order. -/
theorem C5_counterexample :
    MessageOut.decode (.obj [("event", .str "setTitle"), ("context", .str "c"),
        ("payload", .obj [("target", .num 0)])])
      = .ok (.setTitle "c" ⟨none, .both, none⟩)
    ∧ jsonEqUpToKeyOrder
        (MessageOut.encode (.setTitle "c" ⟨none, .both, none⟩))
        (.obj [("event", .str "setTitle"), ("context", .str "c"),
          ("payload", .obj [("target", .num 0)])])
      = false := by
  constructor
  · rfl
  · simp [jsonEqUpToKeyOrder, MessageOut.encode, TitlePayload.toJson, optStrJson,
      skipOptU8Field, Target.toJson, Json.norm, normFields, sortFields, insertField,
      Json.beq, beqFields]

/-- C5 witness: the spec's `showAlert` example for context `ctx1`. -/
theorem C5_witness :
    MessageOut.decode (MessageOut.encode (.showAlert "ctx1")) = .ok (.showAlert "ctx1")
    ∧ MessageOut.encode (.showAlert "ctx1") = MessageOut.encode (.showAlert "ctx1") :=
  ⟨C5_outbound_roundtrip.1 _,
   C5_outbound_roundtrip.2 _ _ (.showAlert "ctx1") rfl (C5_outbound_roundtrip.1 _)⟩

end StreamDeck
